import Mathlib

/-!
Shallow embedding of the Seatalk bot's question-routing and data-analysis
core (the `ShopeeDataAnalyzer`, the multi-sheet `QuestionProcessor`, the
`SheetsClient` boundary and the Groq fallback glue), together with proofs
about the claims of the specification.

Modelling conventions:
* Spreadsheet cells are strings, exact integers, or a missing marker
  (`Cell.na`, standing for pandas `NaN`).  The numeric columns the claims
  exercise hold integral quantities, so numeric cells are modelled as `Int`
  and only the weighted-average quotient lives in `Rat`; the claims under
  scrutiny concern sum/ordering semantics, not floating-point rounding.
* `str.lower()` is modelled as ASCII lowercasing (the keyword sets and all
  concrete inputs below contain no uppercase non-ASCII letters, where Python
  would lowercase more).
* Fallible Python code is modelled with `Except String`; a value built with
  `.error` stands for an exception escaping the modelled function, while
  user-facing error strings produced by `try/except` handlers are ordinary
  `.ok` results.
* `str.contains(pat, case=False, na=False)` is modelled as case-insensitive
  substring containment (the production selectors are plain product names,
  i.e. regex-metacharacter-free patterns, for which pandas' default
  `regex=True` matching coincides with substring search); `na=False` makes a
  missing or non-string cell never match.
* `DataFrame.sum()` keeps pandas' `skipna=True` behaviour: `na` cells count
  as 0; a string cell in a column being summed has no numeric sum and is
  modelled as `none` (the claims' hypotheses keep those columns numeric).
* `sort_values(by=…, ascending=False)` is modelled as a stable descending
  sort (`List.insertionSort`); NumPy's sort coincides with the stable order
  on the small group lists exercised by the concrete inputs below.
-/

deriving instance DecidableEq for Except

/-- Predicate `listStarts n h`: true iff the char list `n` is an initial segment of `h`
(the building block for Python's substring test `n in h`). -/
def listStarts : List Char → List Char → Bool
  | [], _ => true
  | _ :: _, [] => false
  | a :: as, b :: bs => a == b && listStarts as bs

/-- Predicate `listSub n h`: true iff `n` occurs contiguously inside `h`. -/
def listSub (n : List Char) : List Char → Bool
  | [] => n.isEmpty
  | b :: t => listStarts n (b :: t) || listSub n t

/-- Python's `needle in hay` on strings. -/
def strContains (hay needle : String) : Bool :=
  listSub needle.toList hay.toList

/-- ASCII lowercasing of one character. -/
def charLower (c : Char) : Char :=
  if 'A' ≤ c ∧ c ≤ 'Z' then Char.ofNat (c.toNat + 32) else c

/-- Python's `s.lower()` (ASCII range). -/
def pyLower (s : String) : String :=
  String.mk (s.toList.map charLower)

/-- Case-insensitive containment, as in `str.contains(needle, case=False)`. -/
def ciContains (hay needle : String) : Bool :=
  strContains (pyLower hay) (pyLower needle)

/-- Accumulator pass behind `pySplit`. -/
def wordsAux : List Char → List Char → List String
  | [], acc => if acc.isEmpty then [] else [String.mk acc.reverse]
  | c :: cs, acc =>
    if c.isWhitespace then
      if acc.isEmpty then wordsAux cs [] else String.mk acc.reverse :: wordsAux cs []
    else wordsAux cs (c :: acc)

/-- Python's `text.split()`: split on whitespace runs, dropping empty pieces. -/
def pySplit (s : String) : List String :=
  wordsAux s.toList []

/-- Python's `s.strip()`. -/
def pyStrip (s : String) : String :=
  String.mk (((s.toList.dropWhile Char.isWhitespace).reverse.dropWhile Char.isWhitespace).reverse)

/-- Python's `s.ljust(w)`. -/
def pyLjust (s : String) (w : Nat) : String :=
  s ++ String.mk (List.replicate (w - s.length) ' ')

/-- Python string truthiness for an optional string argument
(`None` and `""` are falsy). -/
def pyTruthy : Option String → Bool
  | none => false
  | some s => s ≠ ""

/-- A spreadsheet cell: a string, an exact number, or missing (`NaN`). -/
inductive Cell where
  | str (s : String)
  | num (z : Int)
  | na
  deriving DecidableEq, Repr

/-- Is the cell the missing marker? -/
def Cell.isNa : Cell → Bool
  | .na => true
  | _ => false

/-- Is the cell numeric? -/
def Cell.isNum : Cell → Bool
  | .num _ => true
  | _ => false

/-- Is the cell a string? -/
def Cell.isStr : Cell → Bool
  | .str _ => true
  | _ => false

/-- Python `str(x)` of a cell value (numeric rendering is schematic; no claim
inspects the rendering of a numeric cell). -/
def cellStr : Cell → String
  | .str s => s
  | .num z => toString z
  | .na => "nan"

/-- Cell rendering after `fillna("-")`, as used by the table formatter. -/
def cellShow : Cell → String
  | .na => "-"
  | c => cellStr c

/-- The numeric value of a cell, with `na` counting as 0 (pandas `skipna`). -/
def cellNum : Cell → Int
  | .num z => z
  | _ => 0

/-- Model of `series.str.contains(pat, case=False, na=False)` at one cell: a
case-insensitive substring test on string cells, false on anything else. -/
def cellMatches (c : Cell) (pat : String) : Bool :=
  match c with
  | .str s => ciContains s pat
  | _ => false

/-- The in-memory table: an ordered header and the data rows
(`pd.DataFrame(values[1:], columns=values[0])`). -/
structure DataFrame where
  header : List String
  rows : List (List Cell)
  deriving DecidableEq, Repr

/-- pandas `df.empty`: true iff either axis has length 0. -/
def dfEmpty (df : DataFrame) : Bool :=
  df.rows.isEmpty || df.header.isEmpty

/-- Index of the first column with the given name (pandas label lookup). -/
def colIdx (df : DataFrame) (name : String) : Option Nat :=
  df.header.findIdx? (fun h => h == name)

/-- The cells of the named column, in row order (missing entries of a ragged
row read as `na`); `[]` when the column is absent. -/
def colCells (df : DataFrame) (name : String) : List Cell :=
  match colIdx df name with
  | some i => df.rows.map (fun r => r.getD i Cell.na)
  | none => []

/-- pandas `.sum()` over a column's cells: `na` is skipped (counts as 0),
a string cell makes the numeric sum undefined. -/
def sumNum : List Cell → Option Int
  | [] => some 0
  | .num z :: rest => (sumNum rest).map (fun s => z + s)
  | .na :: rest => sumNum rest
  | .str _ :: _ => none

/-- Model of `ShopeeDataAnalyzer._find_product_column`: first column whose lowercased
name contains one of the fixed product-ish names, else the first column;
`none` only when the table has no columns at all. -/
def findProductColumn (df : DataFrame) : Option String :=
  let possible_names := ["produto", "product", "nome", "name", "item", "sku"]
  match df.header.find? (fun col => possible_names.any (fun n => strContains (pyLower col) n)) with
  | some col => some col
  | none => df.header.head?

/-- The quantity-column fallback scan of `get_total_quantity`: first column
whose lowercased name contains `"quant"` or `"qty"`. -/
def possibleQuantCol (df : DataFrame) : Option String :=
  (df.header.filter (fun col => strContains (pyLower col) "quant" || strContains (pyLower col) "qty")).head?

/-- Quantity-column resolution of `get_total_quantity`: the requested name if
present, else the fallback scan. -/
def resolveQuantColumn (df : DataFrame) (column_name : String) : Option String :=
  if df.header.contains column_name then some column_name else possibleQuantCol df

/-- Model of `ShopeeDataAnalyzer.get_total_quantity`.  `.error` models the wrapped
exception `Erro ao calcular quantidade total: …`. -/
def get_total_quantity (df : DataFrame) (product_name : Option String := none)
    (column_name : String := "quantidade") : Except String Int :=
  match resolveQuantColumn df column_name with
  | none => .error "Erro ao calcular quantidade total: coluna de quantidade não encontrada"
  | some qc =>
    match product_name with
    | some p =>
      if p = "" then
        match sumNum (colCells df qc) with
        | some t => .ok t
        | none => .error "Erro ao calcular quantidade total: soma não numérica"
      else
        match findProductColumn df with
        | none => .error "Erro ao calcular quantidade total: DataFrame sem colunas"
        | some pc =>
          let kept := ((colCells df pc).zip (colCells df qc)).filter (fun pr => cellMatches pr.1 p)
          match sumNum (kept.map Prod.snd) with
          | some t => .ok t
          | none => .error "Erro ao calcular quantidade total: soma não numérica"
    | none =>
      match sumNum (colCells df qc) with
      | some t => .ok t
      | none => .error "Erro ao calcular quantidade total: soma não numérica"

/-- The per-row contribution to `(df[value] * df[weight]).sum()`.  A product
with a missing factor is `NaN` and skipped (counts as 0); a string factor has
no numeric product. -/
def cellProdTerm : Cell → Cell → Option Int
  | .num a, .num b => some (a * b)
  | .num _, .na => some 0
  | .na, .num _ => some 0
  | .na, .na => some 0
  | _, _ => none

/-- Sum of the pairwise products of two cell columns. -/
def sumProd : List (Cell × Cell) → Option Int
  | [] => some 0
  | (a, b) :: rest =>
    match cellProdTerm a b, sumProd rest with
    | some t, some s => some (t + s)
    | _, _ => none

/-- The row-filter step of `get_weighted_average`
(`df[df[filter_column].str.contains(filter_value, case=False, na=False)]`);
`.error` models the `KeyError` on a missing filter column. -/
def waFilter (df : DataFrame) (filter_column filter_value : String) : Except String DataFrame :=
  match colIdx df filter_column with
  | none => .error "Erro ao calcular média ponderada: coluna de filtro ausente"
  | some fi => .ok { df with rows := df.rows.filter (fun r => cellMatches (r.getD fi Cell.na) filter_value) }

/-- The post-filter body of `get_weighted_average`: the emptiness guard, the
two sums and the zero-weight guard. -/
def wa_compute (df2 : DataFrame) (value_column weight_column : String) : Except String Rat :=
  if dfEmpty df2 then .ok 0
  else
    match colIdx df2 value_column, colIdx df2 weight_column with
    | some vi, some wi =>
      match sumProd (df2.rows.map (fun r => (r.getD vi Cell.na, r.getD wi Cell.na))),
            sumNum (df2.rows.map (fun r => r.getD wi Cell.na)) with
      | some weighted_sum, some total_weight =>
        if total_weight = 0 then .ok 0
        else .ok ((weighted_sum : Rat) / (total_weight : Rat))
      | _, _ => .error "Erro ao calcular média ponderada: soma não numérica"
    | _, _ => .error "Erro ao calcular média ponderada: coluna ausente"

/-- Model of `ShopeeDataAnalyzer.get_weighted_average`. -/
def get_weighted_average (df : DataFrame) (value_column weight_column : String)
    (filter_column : Option String := none) (filter_value : Option String := none) :
    Except String Rat :=
  if pyTruthy filter_column && pyTruthy filter_value then
    match filter_column, filter_value with
    | some fc, some fv =>
      match waFilter df fc fv with
      | .ok df2 => wa_compute df2 value_column weight_column
      | .error e => .error e
    | _, _ => wa_compute df value_column weight_column
  else wa_compute df value_column weight_column

/-- One row of the grouped summary produced by `get_summary_by_product`:
the group key, the summed quantity, and the summed value column when one was
requested and present. -/
structure SummaryRow where
  key : Cell
  qty : Int
  val : Option Int
  deriving DecidableEq, Repr

/-- Code-point lexicographic comparison of char lists (Python string `≤`). -/
def strLeB : List Char → List Char → Bool
  | [], _ => true
  | _ :: _, [] => false
  | a :: as, b :: bs =>
    if a.toNat < b.toNat then true
    else if b.toNat < a.toNat then false
    else strLeB as bs

/-- Ascending comparison of group keys by their rendered value (pandas
`groupby(..., sort=True)` orders the group labels). -/
def keyLe (a b : Cell) : Prop := strLeB (cellStr a).toList (cellStr b).toList = true

instance : DecidableRel keyLe := fun a b =>
  inferInstanceAs (Decidable (strLeB (cellStr a).toList (cellStr b).toList = true))

theorem strLeB_total (x y : List Char) : strLeB x y = true ∨ strLeB y x = true := by
  induction x generalizing y with
  | nil => left; rfl
  | cons a as ih =>
    cases y with
    | nil => right; rfl
    | cons b bs =>
      simp only [strLeB]
      rcases Nat.lt_trichotomy a.toNat b.toNat with h | h | h
      · left; simp [h]
      · have h' : ¬ a.toNat < b.toNat := by omega
        have h'' : ¬ b.toNat < a.toNat := by omega
        simpa [h', h''] using ih bs
      · right; simp [h]

theorem strLeB_trans {x y z : List Char} (h1 : strLeB x y = true) (h2 : strLeB y z = true) :
    strLeB x z = true := by
  induction x generalizing y z with
  | nil => rfl
  | cons a as ih =>
    cases y with
    | nil => simp [strLeB] at h1
    | cons b bs =>
      cases z with
      | nil => simp [strLeB] at h2
      | cons c cs =>
        simp only [strLeB] at h1 h2 ⊢
        by_cases hab : a.toNat < b.toNat
        · by_cases hbc : b.toNat < c.toNat
          · have hac : a.toNat < c.toNat := by omega
            simp [hac]
          · by_cases hcb : c.toNat < b.toNat
            · simp [hbc, hcb] at h2
            · have hac : a.toNat < c.toNat := by omega
              simp [hac]
        · by_cases hba : b.toNat < a.toNat
          · simp [hab, hba] at h1
          · simp only [if_neg hab, if_neg hba] at h1
            by_cases hbc : b.toNat < c.toNat
            · have hac : a.toNat < c.toNat := by omega
              simp [hac]
            · by_cases hcb : c.toNat < b.toNat
              · simp [hbc, hcb] at h2
              · simp only [if_neg hbc, if_neg hcb] at h2
                have hac : ¬ a.toNat < c.toNat := by omega
                have hca : ¬ c.toNat < a.toNat := by omega
                simp only [if_neg hac, if_neg hca]
                exact ih h1 h2

instance : IsTotal Cell keyLe := ⟨fun a b => strLeB_total (cellStr a).toList (cellStr b).toList⟩

instance : IsTrans Cell keyLe := ⟨fun _ _ _ h1 h2 => strLeB_trans h1 h2⟩

/-- Descending comparison of summary rows by summed quantity
(`sort_values(by=quantity_column, ascending=False)`). -/
def sumGe (a b : SummaryRow) : Prop := b.qty ≤ a.qty

instance : DecidableRel sumGe := fun a b => inferInstanceAs (Decidable (b.qty ≤ a.qty))

instance : IsTotal SummaryRow sumGe := ⟨fun a b => (le_total a.qty b.qty).symm⟩

instance : IsTrans SummaryRow sumGe := ⟨fun _ _ _ h1 h2 => le_trans h2 h1⟩

/-- The distinct values of a list in order of first appearance. -/
def distinctKeys (l : List Cell) : List Cell :=
  l.foldl (fun acc c => if c ∈ acc then acc else acc ++ [c]) []

/-- Per-group aggregation: for each key, the sum of the quantity cells of the
rows carrying that key, plus (when a value column was requested) the sum of
its cells; `none` when a column being summed is not numeric. -/
def aggRows (pairs : List (Cell × Cell)) (vpairs : Option (List (Cell × Cell))) :
    List Cell → Option (List SummaryRow)
  | [] => some []
  | k :: ks =>
    let q? := sumNum ((pairs.filter (fun p => decide (p.1 = k))).map Prod.snd)
    let v? : Option (Option Int) :=
      match vpairs with
      | none => some none
      | some vp =>
        match sumNum ((vp.filter (fun p => decide (p.1 = k))).map Prod.snd) with
        | some s => some (some s)
        | none => none
    match q?, v?, aggRows pairs vpairs ks with
    | some q, some v, some rest => some (⟨k, q, v⟩ :: rest)
    | _, _, _ => none

/-- Model of `ShopeeDataAnalyzer.get_summary_by_product`:
`df.groupby(product_column).agg({quantity_column: 'sum', …}).reset_index()`
followed by `sort_values(by=quantity_column, ascending=False)`.  The groupby
step drops rows with a missing key and orders the group labels; the final
sort is by summed quantity, descending. -/
def get_summary_by_product (df : DataFrame) (quantity_column : String := "quantidade")
    (value_column : Option String := none) : Except String (List SummaryRow) :=
  match findProductColumn df with
  | none => .error "Erro ao gerar resumo por produto: DataFrame sem colunas"
  | some pc =>
    if df.header.contains quantity_column then
      let keyOf := colCells df pc
      let pairs := (keyOf.zip (colCells df quantity_column)).filter (fun p => !p.1.isNa)
      let vpairs : Option (List (Cell × Cell)) :=
        match value_column with
        | some vc =>
          if vc ≠ "" && df.header.contains vc then
            some ((keyOf.zip (colCells df vc)).filter (fun p => !p.1.isNa))
          else none
        | none => none
      let keys := List.insertionSort keyLe (distinctKeys (pairs.map Prod.fst))
      match aggRows pairs vpairs keys with
      | some agg => .ok (List.insertionSort sumGe agg)
      | none => .error "Erro ao gerar resumo por produto: soma não numérica"
    else .error "Erro ao gerar resumo por produto: coluna de quantidade ausente"

/-- Model of `ShopeeDataAnalyzer.get_top_products`: the head of the product summary. -/
def get_top_products (df : DataFrame) (n : Nat := 10)
    (quantity_column : String := "quantidade") : Except String (List SummaryRow) :=
  match get_summary_by_product df quantity_column none with
  | .ok summary => .ok (summary.take n)
  | .error e => .error ("Erro ao obter top produtos: " ++ e)

/-- Model of `ShopeeDataAnalyzer.get_column_names`. -/
def get_column_names (df : DataFrame) : List String := df.header

/-- Model of `ShopeeDataAnalyzer.get_data_preview`: the first `n` rows. -/
def get_data_preview (df : DataFrame) (n : Nat := 5) : DataFrame :=
  { df with rows := df.rows.take n }

/-- Largest element of a list of naturals (0 on the empty list; the formatter
only evaluates it under a non-empty-table guard). -/
def natMaxList (l : List Nat) : Nat := l.foldl max 0

/-- Model of `QuestionProcessor._format_dataframe`: fixed-width rendering with `na`
cells shown as `-`; every column is left-justified to the maximum of its
header length and its widest rendered cell, columns joined by two spaces.
Column lookup is positional (header labels are unique in practice). -/
def format_dataframe (df : DataFrame) : String :=
  if dfEmpty df then "❌ DataFrame vazio ou inválido"
  else
    let widthOf : Nat → String → Nat := fun i col =>
      max (natMaxList (df.rows.map (fun r => (cellShow (r.getD i Cell.na)).length))) col.length
    let cols := df.header.enum
    let headerLine := String.intercalate "  " (cols.map (fun ic => pyLjust ic.2 (widthOf ic.1 ic.2)))
    let rowLine : List Cell → String := fun r =>
      String.intercalate "  " (cols.map (fun ic => pyLjust (cellShow (r.getD ic.1 Cell.na)) (widthOf ic.1 ic.2)))
    headerLine ++ "\n" ++ String.intercalate "\n" (df.rows.map rowLine)

/-- The external spreadsheet boundary as seen by the multi-sheet processor.
`SheetsClient.get_all_data` and `get_cell_value` catch every provider
exception internally and return `None`, so they are total here; `ontem` is
the formatted yesterday-date used by the leftover preview. -/
structure SheetsEnv where
  fetch : String → Option DataFrame
  cellB1 : Option String
  ontem : String

/-- The mutable state of the multi-sheet `QuestionProcessor`. -/
structure ProcState where
  analyzer_main : Option DataFrame
  analyzer_secondary : Option DataFrame
  is_ready_main : Bool
  is_ready_secondary : Bool
  deriving DecidableEq

/-- The `is_ready` property: the system is ready iff the main sheet is. -/
def ProcState.is_ready (st : ProcState) : Bool := st.is_ready_main

/-- Model of `QuestionProcessor._load_main_data`: provider failure, `None` and the
empty table all leave the main analyzer absent and not ready. -/
def load_main_data (env : SheetsEnv) (st : ProcState) : ProcState :=
  match env.fetch "main" with
  | none => { st with analyzer_main := none, is_ready_main := false }
  | some df =>
    if dfEmpty df then { st with analyzer_main := none, is_ready_main := false }
    else { st with analyzer_main := some df, is_ready_main := true }

/-- Model of `QuestionProcessor._load_secondary_data`. -/
def load_secondary_data (env : SheetsEnv) (st : ProcState) : ProcState :=
  match env.fetch "secondary" with
  | none => { st with analyzer_secondary := none, is_ready_secondary := false }
  | some df =>
    if dfEmpty df then { st with analyzer_secondary := none, is_ready_secondary := false }
    else { st with analyzer_secondary := some df, is_ready_secondary := true }

/-- Model of `QuestionProcessor._load_data`: load both sheets. -/
def load_data (env : SheetsEnv) (st : ProcState) : ProcState :=
  load_secondary_data env (load_main_data env st)

/-- Construction of the multi-sheet processor: fresh flags, then `_load_data`. -/
def mk_question_processor (env : SheetsEnv) : ProcState :=
  load_data env
    { analyzer_main := none, analyzer_secondary := none,
      is_ready_main := false, is_ready_secondary := false }

/-- Model of `QuestionProcessor.refresh_data(sheet)`: reload the requested sheets and
report a per-sheet status string. -/
def refresh_data (env : SheetsEnv) (st : ProcState) (sheet : String := "all") :
    ProcState × String :=
  let st1 := if sheet = "all" || sheet = "main" then load_main_data env st else st
  let st2 := if sheet = "all" || sheet = "secondary" then load_secondary_data env st1 else st1
  if sheet = "all" then
    let s1 := if st2.is_ready_main then "✅ Aba principal OK" else "❌ Aba principal falhou"
    let s2 := if st2.is_ready_secondary then "✅ Aba secundária OK" else "⚠️ Aba secundária indisponível"
    (st2, s1 ++ "\n" ++ s2)
  else
    let r := if sheet = "main" then st2.is_ready_main else st2.is_ready_secondary
    (st2, if r then "✅ " ++ sheet ++ " recarregada!" else "❌ Falha ao recarregar " ++ sheet)

/-- Model of `QuestionProcessor._get_help_message`. -/
def get_help_message : String :=
  "\n📋 **Comandos Disponíveis:**\n\n**Consultas de Indicadores (Aba Principal):**\n• `!Indicadores` - Mostra como está o status dos Indicadores.\n• `Explicar [Indicador]`\n• `Quais indicadores existem?` - Mostra todos os Indicadores do SITE\n\n**Leftover:**\n• `!Leftover` - Mostra dados da segunda aba\n• `!Sobras` - Alias para aba secundária\n\n**Informações:**\n• `!Ofensores` - Lista maiores ofensores\n• `!Fora do target` - Indicadores fora do target\n• `status` - Status de todas as abas\n\n**Utilitários:**\n• `recarregar` - Atualiza dados do Google Sheets\n• `colunas` - Lista colunas disponíveis\n• `ajuda` - Mostra esta mensagem\n\n**Exemplo de uso:**\n_\"!Indicadores\"_  \n_\"!Sobras\"_\n_\"status\"_\n"

/-- Model of `QuestionProcessor._list_columns`. -/
def list_columns (st : ProcState) : String :=
  let resp :=
    (match st.analyzer_main with
     | some a => ["📊 **Colunas da Aba Principal:**\n" ++
         String.intercalate "\n" ((get_column_names a).map (fun col => "  • " ++ col))]
     | none => []) ++
    (match st.analyzer_secondary with
     | some a => ["\n📊 **Colunas da Aba Secundária:**\n" ++
         String.intercalate "\n" ((get_column_names a).map (fun col => "  • " ++ col))]
     | none => [])
  if resp.isEmpty then "❌ Nenhuma aba disponível" else String.intercalate "\n" resp

/-- Model of `QuestionProcessor._show_data_preview`: `Filter!B1` (read through the
catching `get_cell_value`, so falsy results render as `N/A`) plus the first 24
rows of the main sheet. -/
def show_data_preview (env : SheetsEnv) (st : ProcState) : String :=
  match st.analyzer_main with
  | none => "❌ Aba principal não disponível"
  | some a =>
    let b1 := match env.cellB1 with
      | some v => if v = "" then "N/A" else v
      | none => "N/A"
    "📋 **Indicadores Performance SITE**\n📌 *Resumo do dia: **" ++ b1 ++ "**\n```\n" ++
      format_dataframe (get_data_preview a 24) ++ "\n```"

/-- Model of `QuestionProcessor._show_secondary_data_preview`. -/
def show_secondary_data_preview (env : SheetsEnv) (st : ProcState) : String :=
  match st.analyzer_secondary with
  | none => "❌ Aba secundária não disponível. Configure GOOGLE_SHEET_RANGE_2 no .env"
  | some a =>
    "📋 **Resumo Leftover " ++ env.ontem ++ "**\n```\n" ++
      format_dataframe (get_data_preview a 24) ++ "\n```"

/-- Model of `QuestionProcessor._get_default_response`. -/
def get_default_response (question : String) : String :=
  "\n                ❓ Desculpe, não entendi sua pergunta: \"" ++ question ++
    "\"\n\n                Digite **ajuda** para ver os comandos disponíveis.\n                "

/-- The guard of the list-all branch of `explicar_indicador`, exactly as the
Python condition parses: `and` binds tighter than `or`, so only the
`"todos os indicadores"` disjunct is guarded by the absence of `"explica"`. -/
def listAllTrigger (text_low : String) : Bool :=
  strContains text_low "quais indicadores" || strContains text_low "listar indicadores" ||
    (strContains text_low "todos os indicadores" && !strContains text_low "explica")

/-- The guard of the explain-all branch of `explicar_indicador`. -/
def explainAllTrigger (text_low : String) : Bool :=
  strContains text_low "explica todos" || strContains text_low "explicar todos" ||
    strContains text_low "explicação de todos"

/-- The explain/logic keyword test of `explicar_indicador`. -/
def explainKeyword (text_low : String) : Bool :=
  strContains text_low "explica" || strContains text_low "lógica" || strContains text_low "logica"

/-- The failure message shown when the logic sheet cannot be loaded. -/
def logicSheetFailMsg : String := "⚠️ Não consegui carregar a aba 'Logica indicadores'."

/-- Model of `str.lower()` of a cell under pandas' `.str` accessor: `None`-like (`na`)
on a non-string cell. -/
def cellLower? : Cell → Option String
  | .str s => some (pyLower s)
  | _ => none

/-- The `"—" * 40` separator of the explain-all branch. -/
def sepLine : String := String.mk (List.replicate 40 '—')

/-- Model of `QuestionProcessor.explicar_indicador` (the second, overriding
definition).  `.ok none` means "not an explanation request, continue normal
dispatch".  The list-all and explain-all branches run outside any
`try/except`, so an out-of-range `df.columns[i]` there is an escaping
`IndexError`, modelled as `.error`; the explain-one branch is wrapped in
`try/except` and converts its failures to user-facing strings. -/
def explicar_indicador (env : SheetsEnv) (message_text : String) :
    Except String (Option String) :=
  let text_low := pyLower message_text
  if listAllTrigger text_low then
    match env.fetch "logica" with
    | none => .ok (some logicSheetFailMsg)
    | some df =>
      if dfEmpty df then .ok (some logicSheetFailMsg)
      else
        match df.header.head? with
        | none => .error "IndexError: df.columns[0]"
        | some col_nome =>
          .ok (some ("📋 **Lista de Indicadores Disponíveis:**\n\n" ++
            String.intercalate "\n" ((colCells df col_nome).map (fun i => "• " ++ cellStr i))))
  else if explainAllTrigger text_low then
    match env.fetch "logica" with
    | none => .ok (some logicSheetFailMsg)
    | some df =>
      if dfEmpty df then .ok (some logicSheetFailMsg)
      else
        match df.header.get? 0, df.header.get? 1 with
        | some col_nome, some col_logica =>
          .ok (some ("📘 **Explicação de Todos os Indicadores**\n\n" ++
            String.join (((colCells df col_nome).zip (colCells df col_logica)).map (fun p =>
              "🔹 **" ++ cellStr p.1 ++ "**\n" ++ cellStr p.2 ++ "\n\n" ++ sepLine ++ "\n\n"))))
        | _, _ => .error "IndexError: df.columns[1]"
  else if !explainKeyword text_low then .ok none
  else
    match env.fetch "logica" with
    | none => .ok (some logicSheetFailMsg)
    | some df =>
      if dfEmpty df then .ok (some logicSheetFailMsg)
      else
        match df.header.get? 0, df.header.get? 1 with
        | some col_nome, some col_logica =>
          let indicadores := (colCells df col_nome).map (fun c => pyLower (cellStr c))
          match indicadores.find? (fun ind => strContains text_low ind) with
          | none => .ok (some "📘 Qual indicador você deseja que eu explique?")
          | some encontrado =>
            match ((colCells df col_nome).zip (colCells df col_logica)).find?
                (fun p => decide (cellLower? p.1 = some encontrado)) with
            | some linha =>
              .ok (some ("📘 **Explicação do indicador: " ++ cellStr linha.1 ++ "**\n\n" ++
                cellStr linha.2))
            | none =>
              .ok (some "❌ Erro ao consultar lógica dos indicadores: single positional indexer is out-of-bounds")
        | _, _ =>
          .ok (some "❌ Erro ao consultar lógica dos indicadores: index 1 is out of bounds")

/-- The fixed message returned while the router is not ready. -/
def notReadyMsg : String :=
  "❌ Não foi possível carregar os dados. Verifique a configuração do Google Sheets."

/-- Model of `QuestionProcessor.process_question` of the multi-sheet processor.  The
first component is the returned response (or an escaping exception), the
second the processor state after the call (only the refresh branch mutates). -/
def process_question (env : SheetsEnv) (st : ProcState) (question : String) :
    Except String String × ProcState :=
  if !st.is_ready then (.ok notReadyMsg, st)
  else
    let question_lower := pyStrip (pyLower question)
    match explicar_indicador env question with
    | .error e => (.error e, st)
    | .ok (some explicacao) => (.ok explicacao, st)
    | .ok none =>
      if ["help", "comandos", "ajuda"].any (fun cmd => strContains question_lower cmd) then
        (.ok get_help_message, st)
      else if ["colunas", "columns", "campos", "fields"].any (fun cmd => strContains question_lower cmd) then
        (.ok (list_columns st), st)
      else if ["!indicadores", "!indicador", "!performance", "!table"].any (fun cmd => strContains question_lower cmd) then
        (.ok (show_data_preview env st), st)
      else if ["!Leftover", "!sobras", "!leftover"].any (fun cmd => strContains question_lower cmd) then
        (.ok (show_secondary_data_preview env st), st)
      else if ["recarregar", "atualizar", "refresh", "reload"].any (fun w => strContains question_lower w) then
        let r := refresh_data env st "all"
        (.ok r.2, r.1)
      else (.ok (get_default_response question), st)

/-- The single-sheet (legacy) `QuestionProcessor` state. -/
structure FlatProcessor where
  analyzer : Option DataFrame
  is_ready : Bool
  deriving DecidableEq

/-- The legacy `_load_data`: its `get_all_data()` raises on provider failure,
but the surrounding `try/except` turns that into the same absent/not-ready
outcome as a `None` result, so the fetch outcome is one `Option`. -/
def flat_load_data (fetch : Option DataFrame) (_st : FlatProcessor) : FlatProcessor :=
  match fetch with
  | none => { analyzer := none, is_ready := false }
  | some df =>
    if dfEmpty df then { analyzer := none, is_ready := false }
    else { analyzer := some df, is_ready := true }

/-- Construction of the legacy processor. -/
def mk_flat_processor (fetch : Option DataFrame) : FlatProcessor :=
  flat_load_data fetch { analyzer := none, is_ready := false }

/-- The legacy `refresh_data`. -/
def flat_refresh_data (fetch : Option DataFrame) (st : FlatProcessor) :
    FlatProcessor × String :=
  let st2 := flat_load_data fetch st
  (st2, if st2.is_ready then "✅ Dados recarregados com sucesso!" else "❌ Falha ao recarregar dados.")

/-- The fixed complex-question phrase set of `GroqClient.should_use_ai`. -/
def complex_keywords : List String :=
  ["por que", "porque", "explique", "como funciona", "qual a diferença", "compare",
   "análise", "sugestão", "recomenda", "o que você acha", "me ajude", "não entendi",
   "dúvida", "quem", "o que é", "como"]

/-- Model of `GroqClient.should_use_ai`. -/
def should_use_ai (question : String) : Bool :=
  let question_lower := pyLower question
  if complex_keywords.any (fun k => strContains question_lower k) then true
  else if (pySplit question).length ≤ 3 &&
      !(["quem", "o que", "como"].any (fun w => strContains question_lower w)) then false
  else if 15 < (pySplit question).length then true
  else false

/-- The apology `GroqClient.generate_response` returns when the chat
completion call fails (the client catches its own API exception). -/
def groqFailMsg : String := "❌ Desculpe, não consegui processar sua pergunta no momento."

/-- Model of `GroqClient.generate_response`, with the outcome of the external chat
completion call passed in: on success the stripped content, on failure the
fixed apology — never an exception. -/
def generate_response (api : Except String String) : String :=
  match api with
  | .ok content => pyStrip content
  | .error _ => groqFailMsg

/-- Model of `GroqClient.analyze_with_data`: it delegates to `generate_response` (the data
summary only enriches the prompt). -/
def analyze_with_data (api : Except String String) : String :=
  generate_response api

/-- Python's `previous or default` for an optional string. -/
def pyOrStr (v : Option String) (d : String) : String :=
  match v with
  | some s => if s = "" then d else s
  | none => d

/-- Model of `bot.generate_ai_response`.  `qp = some (some df)` is a processor whose
analyzer is present; `qp = some none` makes `question_processor.analyzer.df`
raise an `AttributeError`, which the surrounding `try/except` catches. -/
def generate_ai_response (groq_ok : Bool) (qp : Option (Option DataFrame))
    (api : Except String String) (previous : Option String) : String :=
  if !groq_ok then pyOrStr previous "❌ IA não disponível."
  else
    match qp with
    | some (some _) => "🤖 " ++ analyze_with_data api
    | some none => pyOrStr previous "❌ Erro IA."
    | none => "🤖 " ++ generate_response api

/-! ## Claims -/

/-- The `shouldUseAI` decision procedure exactly as the specification words
it, for comparison with the implementation `should_use_ai`. -/
def shouldUseAISpec (q : String) : Bool :=
  if complex_keywords.any (fun k => strContains (pyLower q) k) then true
  else if (pySplit q).length ≤ 3 &&
      !(["quem", "o que", "como"].any (fun w => strContains (pyLower q) w)) then false
  else if 15 < (pySplit q).length then true
  else false

/-- C8: `should_use_ai` follows the spec's three-stage decision — any complex
keyword forces `true`; otherwise at most 3 words with no `quem`/`o que`/`como`
forces `false`; otherwise more than 15 words forces `true`; otherwise
`false` — and in particular `should_use_ai "quem sou eu" = true` and
`should_use_ai "ok" = false`. -/
theorem c8_should_use_ai :
    (∀ q : String, should_use_ai q = shouldUseAISpec q) ∧
    should_use_ai "quem sou eu" = true ∧ should_use_ai "ok" = false :=
  ⟨fun _ => rfl, by decide, by decide⟩

/-- C2: whenever the router is not ready, `process_question` returns the
fixed not-ready message for every question and every provider environment —
the guard fires before the sub-router or any intent matching is consulted. -/
theorem c2_not_ready_short_circuits (env : SheetsEnv) (st : ProcState) (q : String)
    (h : st.is_ready = false) :
    (process_question env st q).1 = .ok notReadyMsg := by
  unfold process_question
  rw [h]
  rfl

/-- Witness for C2 at a concrete degraded state and question. -/
theorem c2_witness :
    (process_question { fetch := fun _ => none, cellB1 := none, ontem := "01-01-25" }
      { analyzer_main := none, analyzer_secondary := none,
        is_ready_main := false, is_ready_secondary := false } "qualquer coisa").1 =
      .ok notReadyMsg :=
  c2_not_ready_short_circuits _ _ "qualquer coisa" (by decide)

/-- C4: `get_top_products n` is the first `n` rows of the product summary in
the same order, and when `n` is at least the number of groups it returns the
whole summary without error. -/
theorem c4_top_products (df : DataFrame) (n : Nat) (gs : List SummaryRow)
    (h : get_summary_by_product df "quantidade" none = .ok gs) :
    get_top_products df n "quantidade" = .ok (gs.take n) ∧
      (gs.length ≤ n → get_top_products df n "quantidade" = .ok gs) := by
  constructor
  · simp only [get_top_products, h]
  · intro hn
    simp only [get_top_products, h, List.take_of_length_le hn]

/-- The spec's example table for the top-N scenario. -/
def dfC4 : DataFrame :=
  { header := ["produto", "quantidade"],
    rows := [[Cell.str "Caneta", Cell.num 10], [Cell.str "Caderno", Cell.num 5],
             [Cell.str "Caneta", Cell.num 3]] }

/-- Witness for C4: on the spec's example table `topN 1` is the head of the
summary, and `topN 10` (more than the 2 groups) is the whole summary. -/
theorem c4_witness :
    get_top_products dfC4 1 "quantidade" =
      .ok [{ key := Cell.str "Caneta", qty := 13, val := none }] ∧
    get_top_products dfC4 10 "quantidade" =
      .ok [{ key := Cell.str "Caneta", qty := 13, val := none },
           { key := Cell.str "Caderno", qty := 5, val := none }] := by
  constructor
  · exact ((c4_top_products dfC4 1
      [{ key := Cell.str "Caneta", qty := 13, val := none },
       { key := Cell.str "Caderno", qty := 5, val := none }] (by decide)).1).trans (by decide)
  · exact (c4_top_products dfC4 10
      [{ key := Cell.str "Caneta", qty := 13, val := none },
       { key := Cell.str "Caderno", qty := 5, val := none }] (by decide)).2 (by decide)

/-- C9 (amended): when the generative path raises an exception outside the
Groq client — e.g. the processor's analyzer is absent, so touching
`question_processor.analyzer.df` fails — the user gets the previously
computed router response back; but when the chat completion call itself
fails inside `GroqClient.generate_response`, the delivered response is the
fixed apology prefixed with the AI marker, on both the data-context path and
the plain path, regardless of the previous response. -/
theorem c9_generative_failure (df : DataFrame) (api : Except String String)
    (e previous : String) (hprev : previous ≠ "") :
    generate_ai_response true (some none) api (some previous) = previous ∧
    generate_ai_response true (some (some df)) (.error e) (some previous) =
      "🤖 " ++ groqFailMsg ∧
    generate_ai_response true none (.error e) (some previous) = "🤖 " ++ groqFailMsg := by
  refine ⟨?_, rfl, rfl⟩
  simp [generate_ai_response, pyOrStr, hprev]

/-- Witness for C9's amended statement at concrete inputs. -/
theorem c9_witness :
    generate_ai_response true (some none) (.error "api down") (some "resposta do roteador") =
      "resposta do roteador" ∧
    generate_ai_response true (some (some { header := ["a"], rows := [[Cell.num 1]] }))
        (.error "api down") (some "resposta do roteador") = "🤖 " ++ groqFailMsg :=
  ⟨(c9_generative_failure { header := ["a"], rows := [[Cell.num 1]] } (.error "api down")
      "api down" "resposta do roteador" (by decide)).1,
   (c9_generative_failure { header := ["a"], rows := [[Cell.num 1]] } (.error "api down")
      "api down" "resposta do roteador" (by decide)).2.1⟩

/-- Counterexample to C9 as stated: with the router having produced
`"resposta do roteador"` and the chat completion call failing, the final
response is the apology string `"🤖 ❌ Desculpe…"`, not the previously
computed router response — the internal `try/except` of
`GroqClient.generate_response` converts the API failure into the apology
before `bot.generate_ai_response`'s own fallback can fire. -/
theorem c9_counterexample :
    generate_ai_response true (some (some { header := ["a"], rows := [[Cell.num 1]] }))
        (.error "API timeout") (some "resposta do roteador") =
      "🤖 ❌ Desculpe, não consegui processar sua pergunta no momento." ∧
    "🤖 ❌ Desculpe, não consegui processar sua pergunta no momento." ≠
      "resposta do roteador" := by
  constructor
  · rfl
  · decide

/-- The readiness/analyzer agreement for the main sheet of the multi-sheet
processor: flag set iff the analyzer is present, and a present analyzer
wraps a non-empty table. -/
def MainInv (st : ProcState) : Prop :=
  st.is_ready_main = st.analyzer_main.isSome ∧
    ∀ df, st.analyzer_main = some df → dfEmpty df = false

/-- The same agreement for the secondary sheet. -/
def SecInv (st : ProcState) : Prop :=
  st.is_ready_secondary = st.analyzer_secondary.isSome ∧
    ∀ df, st.analyzer_secondary = some df → dfEmpty df = false

/-- The full readiness invariant of the multi-sheet processor. -/
def ProcInv (st : ProcState) : Prop := MainInv st ∧ SecInv st

/-- The readiness invariant of the legacy single-sheet processor. -/
def FlatInv (st : FlatProcessor) : Prop :=
  st.is_ready = st.analyzer.isSome ∧ ∀ df, st.analyzer = some df → dfEmpty df = false

theorem load_main_mainInv (env : SheetsEnv) (st : ProcState) :
    MainInv (load_main_data env st) := by
  unfold MainInv load_main_data
  cases env.fetch "main" with
  | none => simp
  | some df =>
    by_cases h : dfEmpty df
    · simp [h]
    · simp only [if_neg h]
      exact ⟨rfl, by intro d hd; cases hd; simpa using h⟩

theorem load_main_secInv (env : SheetsEnv) (st : ProcState) (h : SecInv st) :
    SecInv (load_main_data env st) := by
  unfold SecInv load_main_data
  cases env.fetch "main" with
  | none => exact h
  | some df => by_cases hd : dfEmpty df <;> simp [hd] <;> exact h

theorem load_sec_secInv (env : SheetsEnv) (st : ProcState) :
    SecInv (load_secondary_data env st) := by
  unfold SecInv load_secondary_data
  cases env.fetch "secondary" with
  | none => simp
  | some df =>
    by_cases h : dfEmpty df
    · simp [h]
    · simp only [if_neg h]
      exact ⟨rfl, by intro d hd; cases hd; simpa using h⟩

theorem load_sec_mainInv (env : SheetsEnv) (st : ProcState) (h : MainInv st) :
    MainInv (load_secondary_data env st) := by
  unfold MainInv load_secondary_data
  cases env.fetch "secondary" with
  | none => exact h
  | some df => by_cases hd : dfEmpty df <;> simp [hd] <;> exact h

theorem load_data_inv (env : SheetsEnv) (st : ProcState) : ProcInv (load_data env st) :=
  ⟨load_sec_mainInv env _ (load_main_mainInv env st), load_sec_secInv env _⟩

theorem flat_load_inv (fetch : Option DataFrame) (st : FlatProcessor) :
    FlatInv (flat_load_data fetch st) := by
  unfold FlatInv flat_load_data
  cases fetch with
  | none => simp
  | some df =>
    by_cases h : dfEmpty df
    · simp [h]
    · simp only [if_neg h]
      exact ⟨rfl, by intro d hd; cases hd; simpa using h⟩

/-- C10: after construction and after every load or refresh — for any
provider behaviour, any prior state satisfying the invariant and any refresh
scope — each readiness flag is set exactly when its analyzer is present, and
a present analyzer wraps a non-empty table; this holds for the multi-sheet
processor (both sheets) and for the legacy single-sheet processor. -/
theorem c10_readiness_invariant (env : SheetsEnv) (st : ProcState) (sheet : String)
    (fetch : Option DataFrame) (fst : FlatProcessor)
    (h1 : ProcInv st) :
    ProcInv (mk_question_processor env) ∧
    ProcInv (load_data env st) ∧
    ProcInv (refresh_data env st sheet).1 ∧
    FlatInv (mk_flat_processor fetch) ∧
    FlatInv (flat_load_data fetch fst) ∧
    FlatInv (flat_refresh_data fetch fst).1 := by
  refine ⟨load_data_inv env _, load_data_inv env st, ?_, flat_load_inv fetch _,
    flat_load_inv fetch fst, flat_load_inv fetch fst⟩
  by_cases hA : sheet = "all"
  · simp only [refresh_data, hA, if_pos]
    simp
    exact ⟨load_sec_mainInv _ _ (load_main_mainInv _ _), load_sec_secInv _ _⟩
  · by_cases hM : sheet = "main"
    · simp [refresh_data, hA, hM]
      exact ⟨load_main_mainInv _ _, load_main_secInv _ _ h1.2⟩
    · by_cases hS : sheet = "secondary"
      · simp [refresh_data, hA, hM, hS]
        exact ⟨load_sec_mainInv _ _ h1.1, load_sec_secInv _ _⟩
      · simp [refresh_data, hA, hM, hS]
        exact h1

/-- Witness for C10 at a concrete provider and states. -/
theorem c10_witness :
    ProcInv (refresh_data
      { fetch := fun k => if k = "main" then some { header := ["produto"], rows := [[Cell.str "x"]] } else none,
        cellB1 := none, ontem := "01-01-25" }
      { analyzer_main := none, analyzer_secondary := none,
        is_ready_main := false, is_ready_secondary := false } "main").1 ∧
    FlatInv (mk_flat_processor (some { header := ["produto"], rows := [[Cell.str "x"]] })) :=
  ⟨(c10_readiness_invariant _
      { analyzer_main := none, analyzer_secondary := none,
        is_ready_main := false, is_ready_secondary := false } "main"
      (some { header := ["produto"], rows := [[Cell.str "x"]] })
      { analyzer := none, is_ready := false }
      ⟨⟨rfl, by intro df h; cases h⟩, ⟨rfl, by intro df h; cases h⟩⟩).2.2.1,
   (c10_readiness_invariant
      { fetch := fun _ => none, cellB1 := none, ontem := "x" }
      { analyzer_main := none, analyzer_secondary := none,
        is_ready_main := false, is_ready_secondary := false } "main"
      (some { header := ["produto"], rows := [[Cell.str "x"]] })
      { analyzer := none, is_ready := false }
      ⟨⟨rfl, by intro df h; cases h⟩, ⟨rfl, by intro df h; cases h⟩⟩).2.2.2.1⟩

theorem sumNum_eq {cs : List Cell} (h : ∀ c ∈ cs, c.isNum = true) :
    sumNum cs = some ((cs.map cellNum).sum) := by
  induction cs with
  | nil => rfl
  | cons c rest ih =>
    cases c with
    | str s => simpa [Cell.isNum] using h (.str s) (by simp)
    | na => simpa [Cell.isNum] using h .na (by simp)
    | num z =>
      have := ih (fun c hc => h c (by simp [hc]))
      simp [sumNum, this, cellNum]

/-- C5: with the quantity column resolved and numeric and the product column
string-valued, `get_total_quantity` with no selector is the sum of the
quantity column over all rows; with a non-empty selector it is the sum
restricted to rows whose product cell contains the selector
case-insensitively; and a selector matching no row yields `0`, not an
error. -/
theorem c5_total_quantity (df : DataFrame) (qc pc : String) (p : String)
    (hqc : resolveQuantColumn df "quantidade" = some qc)
    (hnum : ∀ c ∈ colCells df qc, c.isNum = true)
    (hpc : findProductColumn df = some pc)
    (hstr : ∀ c ∈ colCells df pc, c.isStr = true)
    (hp : p ≠ "") :
    get_total_quantity df none "quantidade" = .ok (((colCells df qc).map cellNum).sum) ∧
    get_total_quantity df (some p) "quantidade" =
      .ok (((((colCells df pc).zip (colCells df qc)).filter
          (fun pr => ciContains (cellStr pr.1) p)).map (fun pr => cellNum pr.2)).sum) ∧
    ((((colCells df pc).zip (colCells df qc)).filter
        (fun pr => ciContains (cellStr pr.1) p)) = [] →
      get_total_quantity df (some p) "quantidade" = .ok 0) := by
  have hkept : (((colCells df pc).zip (colCells df qc)).filter (fun pr => cellMatches pr.1 p)) =
      (((colCells df pc).zip (colCells df qc)).filter (fun pr => ciContains (cellStr pr.1) p)) := by
    apply List.filter_congr
    intro pr hpr
    have h1 : pr.1 ∈ colCells df pc := (List.of_mem_zip hpr).1
    have := hstr pr.1 h1
    cases hc : pr.1 with
    | str s => simp [cellMatches, cellStr]
    | num z => rw [hc] at this; simp [Cell.isStr] at this
    | na => rw [hc] at this; simp [Cell.isStr] at this
  have hsum2 : sumNum (((((colCells df pc).zip (colCells df qc)).filter
      (fun pr => ciContains (cellStr pr.1) p)).map Prod.snd)) =
      some ((((((colCells df pc).zip (colCells df qc)).filter
        (fun pr => ciContains (cellStr pr.1) p)).map (fun pr => cellNum pr.2))).sum) := by
    have hmem : ∀ c ∈ ((((colCells df pc).zip (colCells df qc)).filter
        (fun pr => ciContains (cellStr pr.1) p)).map Prod.snd), c.isNum = true := by
      intro c hc
      obtain ⟨pr, hpr, hpc2⟩ := List.mem_map.1 hc
      exact hpc2 ▸ hnum pr.2 (List.of_mem_zip (List.mem_of_mem_filter hpr)).2
    rw [sumNum_eq hmem, List.map_map]
    rfl
  refine ⟨?_, ?_, ?_⟩
  · simp only [get_total_quantity, hqc, sumNum_eq hnum]
  · simp only [get_total_quantity, hqc, if_neg hp, hpc, hkept, hsum2]
  · intro hempty
    simp only [get_total_quantity, hqc, if_neg hp, hpc, hkept, hempty]
    rfl

/-- Concrete table for the C5 witness. -/
def dfC5 : DataFrame :=
  { header := ["produto", "quantidade"],
    rows := [[Cell.str "Caneta Azul", Cell.num 10], [Cell.str "Caderno", Cell.num 5],
             [Cell.str "CANETA preta", Cell.num 3]] }

/-- Witness for C5: total with no selector, with a matching case-insensitive
selector, and with a selector matching no row. -/
theorem c5_witness :
    get_total_quantity dfC5 none "quantidade" = .ok 18 ∧
    get_total_quantity dfC5 (some "caneta") "quantidade" = .ok 13 ∧
    get_total_quantity dfC5 (some "mouse") "quantidade" = .ok 0 := by
  refine ⟨?_, ?_, ?_⟩
  · exact (c5_total_quantity dfC5 "quantidade" "produto" "caneta" (by decide) (by decide)
      (by decide) (by decide) (by decide)).1.trans (by decide)
  · exact (c5_total_quantity dfC5 "quantidade" "produto" "caneta" (by decide) (by decide)
      (by decide) (by decide) (by decide)).2.1.trans (by decide)
  · exact (c5_total_quantity dfC5 "quantidade" "produto" "mouse" (by decide) (by decide)
      (by decide) (by decide) (by decide)).2.2 (by decide)

theorem sumProd_eq {l : List (Cell × Cell)}
    (h : ∀ pr ∈ l, pr.1.isNum = true ∧ pr.2.isNum = true) :
    sumProd l = some ((l.map (fun pr => cellNum pr.1 * cellNum pr.2)).sum) := by
  induction l with
  | nil => rfl
  | cons pr rest ih =>
    obtain ⟨h1, h2⟩ := h pr (by simp)
    obtain ⟨a, b⟩ := pr
    cases a with
    | str s => simp [Cell.isNum] at h1
    | na => simp [Cell.isNum] at h1
    | num za =>
      cases b with
      | str s => simp [Cell.isNum] at h2
      | na => simp [Cell.isNum] at h2
      | num zb =>
        have := ih (fun q hq => h q (by simp [hq]))
        simp [sumProd, cellProdTerm, this, cellNum]

theorem colIdx_header_ne {df : DataFrame} {n : String} {i : Nat}
    (h : colIdx df n = some i) : df.header ≠ [] := by
  intro hl
  unfold colIdx at h
  rw [hl] at h
  simp at h

/-- The "optionally filtered row set" of the weighted-average claim: all rows
when no (truthy) filter pair is supplied, otherwise the rows whose filter
cell contains the filter value case-insensitively; `none` when the filter
column is absent (the code raises there). -/
def waKept (df : DataFrame) (fc fv : Option String) : Option (List (List Cell)) :=
  match fc, fv with
  | some f, some v =>
    if pyTruthy (some f) && pyTruthy (some v) then
      match colIdx df f with
      | some fi => some (df.rows.filter (fun r => cellMatches (r.getD fi Cell.na) v))
      | none => none
    else some df.rows
  | _, _ => some df.rows

theorem wa_compute_spec (df2 : DataFrame) (vc wc : String) (vi wi : Nat)
    (hv : colIdx df2 vc = some vi) (hw : colIdx df2 wc = some wi)
    (hnv : ∀ r ∈ df2.rows, (r.getD vi Cell.na).isNum = true)
    (hnw : ∀ r ∈ df2.rows, (r.getD wi Cell.na).isNum = true) :
    ((df2.rows = [] ∨ (df2.rows.map (fun r => cellNum (r.getD wi Cell.na))).sum = 0) →
        wa_compute df2 vc wc = .ok 0) ∧
    (df2.rows ≠ [] → (df2.rows.map (fun r => cellNum (r.getD wi Cell.na))).sum ≠ 0 →
        wa_compute df2 vc wc =
          .ok (((df2.rows.map (fun r =>
                cellNum (r.getD vi Cell.na) * cellNum (r.getD wi Cell.na))).sum : Rat) /
              ((df2.rows.map (fun r => cellNum (r.getD wi Cell.na))).sum : Rat))) := by
  have hprod : sumProd (df2.rows.map (fun r => (r.getD vi Cell.na, r.getD wi Cell.na))) =
      some ((df2.rows.map (fun r =>
        cellNum (r.getD vi Cell.na) * cellNum (r.getD wi Cell.na))).sum) := by
    have h := @sumProd_eq (df2.rows.map (fun r => (r.getD vi Cell.na, r.getD wi Cell.na)))
      (by
        intro pr hpr
        obtain ⟨r, hr, hpr2⟩ := List.mem_map.1 hpr
        exact hpr2 ▸ ⟨hnv r hr, hnw r hr⟩)
    rw [h, List.map_map]
    rfl
  have hwsum : sumNum (df2.rows.map (fun r => r.getD wi Cell.na)) =
      some ((df2.rows.map (fun r => cellNum (r.getD wi Cell.na))).sum) := by
    have h := @sumNum_eq (df2.rows.map (fun r => r.getD wi Cell.na))
      (by
        intro c hc
        obtain ⟨r, hr, hc2⟩ := List.mem_map.1 hc
        exact hc2 ▸ hnw r hr)
    rw [h, List.map_map]
    rfl
  constructor
  · rintro (hrows | hzero)
    · unfold wa_compute
      rw [if_pos]
      unfold dfEmpty
      simp [hrows]
    · by_cases hrows : df2.rows = []
      · unfold wa_compute
        rw [if_pos]
        unfold dfEmpty
        simp [hrows]
      · have hne : dfEmpty df2 = false := by
          unfold dfEmpty
          simp [hrows, colIdx_header_ne hv]
        unfold wa_compute
        rw [hne]
        simp only [Bool.false_eq_true, if_false, hv, hw, hprod, hwsum, hzero, if_true]
  · intro hrows hzero
    have hne : dfEmpty df2 = false := by
      unfold dfEmpty
      simp [hrows, colIdx_header_ne hv]
    unfold wa_compute
    rw [hne]
    simp only [Bool.false_eq_true, if_false, hv, hw, hprod, hwsum, if_neg hzero]

/-- C6 (amended): whenever the optionally filtered row set is empty or its
weight sum is 0, `get_weighted_average` returns 0.0 without dividing;
otherwise it returns Σ(value·weight) / Σ(weight) — which can itself be 0.0
when the weighted sum vanishes, so "exactly when" does not hold. -/
theorem c6_weighted_average (df : DataFrame) (vc wc : String) (fc fv : Option String)
    (kept : List (List Cell)) (vi wi : Nat)
    (hkept : waKept df fc fv = some kept)
    (hv : colIdx df vc = some vi) (hw : colIdx df wc = some wi)
    (hnv : ∀ r ∈ kept, (r.getD vi Cell.na).isNum = true)
    (hnw : ∀ r ∈ kept, (r.getD wi Cell.na).isNum = true) :
    ((kept = [] ∨ (kept.map (fun r => cellNum (r.getD wi Cell.na))).sum = 0) →
        get_weighted_average df vc wc fc fv = .ok 0) ∧
    (kept ≠ [] → (kept.map (fun r => cellNum (r.getD wi Cell.na))).sum ≠ 0 →
        get_weighted_average df vc wc fc fv =
          .ok (((kept.map (fun r =>
                cellNum (r.getD vi Cell.na) * cellNum (r.getD wi Cell.na))).sum : Rat) /
              ((kept.map (fun r => cellNum (r.getD wi Cell.na))).sum : Rat))) := by
  have hred : get_weighted_average df vc wc fc fv = wa_compute { df with rows := kept } vc wc := by
    unfold get_weighted_average
    by_cases hT : (pyTruthy fc && pyTruthy fv) = true
    · rw [if_pos hT]
      cases fc with
      | none => simp [pyTruthy] at hT
      | some f =>
        cases fv with
        | none => simp [pyTruthy] at hT
        | some v =>
          simp only [waKept, if_pos hT] at hkept
          unfold waFilter
          cases hci : colIdx df f with
          | none => rw [hci] at hkept; simp at hkept
          | some fi =>
            rw [hci] at hkept
            simp only [Option.some.injEq] at hkept
            rw [← hkept]
            simp [hci]
    · rw [if_neg hT]
      have hkept' : kept = df.rows := by
        cases fc with
        | none => simpa [waKept] using hkept.symm
        | some f =>
          cases fv with
          | none => simpa [waKept] using hkept.symm
          | some v =>
            simp only [waKept, if_neg hT] at hkept
            simpa using hkept.symm
      rw [hkept']
  rw [hred]
  exact wa_compute_spec { df with rows := kept } vc wc vi wi hv hw hnv hnw

/-- Concrete tables for the C6 witness. -/
def dfC6w : DataFrame :=
  { header := ["valor", "peso"],
    rows := [[Cell.num 4, Cell.num 1], [Cell.num 10, Cell.num 3]] }

/-- Zero-weight table for the C6 witness. -/
def dfC6z : DataFrame :=
  { header := ["valor", "peso"], rows := [[Cell.num 5, Cell.num 0]] }

/-- Witness for C6's amended statement: a non-degenerate weighted average and
a zero-weight-sum table yielding 0.0. -/
theorem c6_witness :
    get_weighted_average dfC6w "valor" "peso" none none = .ok ((17 : Rat) / 2) ∧
    get_weighted_average dfC6z "valor" "peso" none none = .ok 0 := by
  constructor
  · have h := (c6_weighted_average dfC6w "valor" "peso" none none dfC6w.rows 0 1
      (by decide) (by decide) (by decide) (by decide) (by decide)).2 (by decide) (by decide)
    have hX : (dfC6w.rows.map (fun r =>
        cellNum (r.getD 0 Cell.na) * cellNum (r.getD 1 Cell.na))).sum = (34 : Int) := by decide
    have hY : (dfC6w.rows.map (fun r => cellNum (r.getD 1 Cell.na))).sum = (4 : Int) := by decide
    rw [h, hX, hY]
    norm_num
  · exact (c6_weighted_average dfC6z "valor" "peso" none none dfC6z.rows 0 1
      (by decide) (by decide) (by decide) (by decide) (by decide)).1 (Or.inr (by decide))

/-- Single-row table showing "exactly when" fails for C6. -/
def dfC6c : DataFrame :=
  { header := ["valor", "peso"], rows := [[Cell.num 0, Cell.num 1]] }

/-- Counterexample to C6 as stated: on a table with one row (value 0,
weight 1) the filtered row set is non-empty and the weight sum is 1 ≠ 0, yet
`get_weighted_average` still returns 0.0 (= 0·1 / 1) — so 0.0 is *not*
returned exactly when the row set is empty or the weight sum is 0. -/
theorem c6_counterexample :
    get_weighted_average dfC6c "valor" "peso" none none = .ok 0 ∧
    dfC6c.rows ≠ [] ∧
    (dfC6c.rows.map (fun r => cellNum (r.getD 1 Cell.na))).sum = 1 := by
  refine ⟨?_, by decide, by decide⟩
  have h : get_weighted_average dfC6c "valor" "peso" none none =
      .ok ((((0 : Int) : Rat)) / (((1 : Int) : Rat))) := rfl
  rw [h]
  norm_num

/-- Two-column logic sheet for the C7 counterexample. -/
def dfC7 : DataFrame :=
  { header := ["Indicador", "Logica"],
    rows := [[Cell.str "IDR", Cell.str "logica do IDR"],
             [Cell.str "SLA", Cell.str "logica do SLA"]] }

/-- Provider environment serving `dfC7` as the logic sheet. -/
def envC7 : SheetsEnv :=
  { fetch := fun k => if k = "logica" then some dfC7 else none,
    cellB1 := none, ontem := "01-01-25" }

/-- Counterexample to C7 as stated: the input `"explica quais indicadores"`
contains the explain phrase `"explica"`, yet the list-all branch still fires
and returns the full bulleted indicator list — Python's `and` binds tighter
than `or`, so only the `"todos os indicadores"` disjunct is guarded by the
absence of `"explica"`. -/
theorem c7_counterexample :
    explicar_indicador envC7 "explica quais indicadores" =
      .ok (some ("📋 **Lista de Indicadores Disponíveis:**\n\n• IDR\n• SLA")) ∧
    strContains (pyLower "explica quais indicadores") "explica" = true := by
  constructor
  · decide
  · decide

/-- C7 (amended): the list-all branch fires exactly on the guard as Python
parses it — input contains `"quais indicadores"`, or `"listar indicadores"`,
or (`"todos os indicadores"` and no `"explica"`) — and when it fires with a
loaded non-empty logic sheet it returns the bulleted list of every entry of
the sheet's first column. -/
theorem c7_list_all (env : SheetsEnv) (q : String) (df : DataFrame) (c : String)
    (hs : List String)
    (hT : listAllTrigger (pyLower q) = true)
    (hf : env.fetch "logica" = some df)
    (hne : dfEmpty df = false)
    (hh : df.header = c :: hs) :
    explicar_indicador env q =
      .ok (some ("📋 **Lista de Indicadores Disponíveis:**\n\n" ++
        String.intercalate "\n" ((colCells df c).map (fun i => "• " ++ cellStr i)))) ∧
    listAllTrigger (pyLower q) =
      (strContains (pyLower q) "quais indicadores" ||
       strContains (pyLower q) "listar indicadores" ||
       (strContains (pyLower q) "todos os indicadores" &&
        !strContains (pyLower q) "explica")) := by
  refine ⟨?_, rfl⟩
  unfold explicar_indicador
  rw [if_pos hT, hf]
  simp only [hne, Bool.false_eq_true, if_false, hh, List.head?]

/-- Witness for C7's amended statement: a plain list request fires the branch
and yields the bulleted list of both indicator names. -/
theorem c7_witness :
    explicar_indicador envC7 "quais indicadores existem?" =
      .ok (some ("📋 **Lista de Indicadores Disponíveis:**\n\n" ++
        String.intercalate "\n" ((colCells dfC7 "Indicador").map (fun i => "• " ++ cellStr i)))) :=
  (c7_list_all envC7 "quais indicadores existem?" dfC7 "Indicador" ["Logica"]
    (by decide) (by decide) (by decide) (by decide)).1

/-- Did the call return normally (`.ok`) rather than raise? -/
def exceptOk {ε α : Type} : Except ε α → Bool
  | .ok _ => true
  | .error _ => false

/-- The logic sheet, whenever it loads non-empty, has at least the two
columns (name, explanation) the explain-all branch indexes. -/
def GoodLogic (env : SheetsEnv) : Prop :=
  ∀ df, env.fetch "logica" = some df → dfEmpty df = false → 2 ≤ df.header.length

theorem explicar_no_raise (env : SheetsEnv) (q : String) (hgl : GoodLogic env) :
    exceptOk (explicar_indicador env q) = true := by
  unfold explicar_indicador
  by_cases h1 : listAllTrigger (pyLower q) = true
  · rw [if_pos h1]
    cases hf : env.fetch "logica" with
    | none => rfl
    | some df =>
      by_cases he : dfEmpty df = true
      · simp [he, exceptOk]
      · have hlen := hgl df hf (by simpa using he)
        cases hh : df.header with
        | nil => rw [hh] at hlen; simp at hlen
        | cons c hs => simp [he, hh, exceptOk]
  · rw [if_neg h1]
    by_cases h2 : explainAllTrigger (pyLower q) = true
    · rw [if_pos h2]
      cases hf : env.fetch "logica" with
      | none => rfl
      | some df =>
        by_cases he : dfEmpty df = true
        · simp [he, exceptOk]
        · have hlen := hgl df hf (by simpa using he)
          cases hh : df.header with
          | nil => rw [hh] at hlen; simp at hlen
          | cons c hs =>
            cases hs with
            | nil => rw [hh] at hlen; simp at hlen
            | cons d ds => simp [he, hh, exceptOk]
    · rw [if_neg h2]
      by_cases h3 : explainKeyword (pyLower q) = true
      · simp only [h3, Bool.not_true, Bool.false_eq_true, if_false]
        cases hf : env.fetch "logica" with
        | none => rfl
        | some df =>
          by_cases he : dfEmpty df = true
          · simp [he, exceptOk]
          · simp only [he, Bool.false_eq_true, if_false]
            repeat first
            | rfl
            | split
      · simp [h3, exceptOk]

/-- C1 (amended): `process_question` always returns a string — every failure
mode is encoded as user-facing text — provided the logic sheet, whenever it
loads non-empty, has at least two columns; without that proviso the
explain-all branch's unguarded `df.columns[1]` raises (see the
counterexample). -/
theorem c1_process_total (env : SheetsEnv) (st : ProcState) (q : String)
    (hgl : GoodLogic env) :
    exceptOk (process_question env st q).1 = true := by
  unfold process_question
  cases hr : st.is_ready with
  | false => rfl
  | true =>
    simp only [hr, Bool.not_true, Bool.false_eq_true, if_false]
    have hex := explicar_no_raise env q hgl
    split
    next e heq =>
      rw [heq] at hex
      simp [exceptOk] at hex
    next s heq => rfl
    next heq =>
      repeat first
      | rfl
      | split

/-- Ready main sheet for the C1 counterexample. -/
def dfMainC1 : DataFrame := { header := ["produto"], rows := [[Cell.str "x"]] }

/-- One-column, non-empty logic sheet: the degenerate shape whose second
column the explain-all branch indexes without any guard. -/
def dfLogC1 : DataFrame := { header := ["Indicador"], rows := [[Cell.str "IDR"]] }

/-- Environment serving the one-column logic sheet. -/
def envC1 : SheetsEnv :=
  { fetch := fun k => if k = "logica" then some dfLogC1 else none,
    cellB1 := none, ontem := "01-01-25" }

/-- Ready processor state for the C1 counterexample. -/
def stC1 : ProcState :=
  { analyzer_main := some dfMainC1, analyzer_secondary := none,
    is_ready_main := true, is_ready_secondary := false }

/-- Counterexample to C1 as stated: with the router ready and the logic sheet
loading with a single column, the question `"explica todos"` reaches
`df.columns[1]` outside any `try/except` and an `IndexError` escapes
`process_question` instead of being encoded as a user-facing string. -/
theorem c1_counterexample :
    (process_question envC1 stC1 "explica todos").1 = .error "IndexError: df.columns[1]" := by
  decide

/-- Two-column logic sheet for the C1 witness. -/
def dfLogC1w : DataFrame :=
  { header := ["Indicador", "Logica"], rows := [[Cell.str "IDR", Cell.str "regra"]] }

/-- Environment for the C1 witness. -/
def envC1w : SheetsEnv :=
  { fetch := fun k => if k = "logica" then some dfLogC1w else none,
    cellB1 := none, ontem := "01-01-25" }

/-- Witness for C1's amended statement at a concrete environment, state and
question that exercises the explain-all branch. -/
theorem c1_witness :
    exceptOk (process_question envC1w stC1 "explicar todos").1 = true := by
  apply c1_process_total
  intro df hdf _
  have h1 : envC1w.fetch "logica" = some dfLogC1w := rfl
  have h2 : some dfLogC1w = some df := h1.symm.trans hdf
  cases h2
  decide

theorem distinctKeys_aux (l : List Cell) :
    ∀ acc : List Cell, acc.Nodup →
      (l.foldl (fun acc c => if c ∈ acc then acc else acc ++ [c]) acc).Nodup ∧
      (∀ x, x ∈ l.foldl (fun acc c => if c ∈ acc then acc else acc ++ [c]) acc ↔
        x ∈ acc ∨ x ∈ l) := by
  induction l with
  | nil => intro acc h; simpa using h
  | cons c t ih =>
    intro acc h
    simp only [List.foldl_cons]
    by_cases hc : c ∈ acc
    · rw [if_pos hc]
      obtain ⟨h1, h2⟩ := ih acc h
      refine ⟨h1, fun x => ?_⟩
      rw [h2]
      constructor
      · rintro (hx | hx)
        · exact Or.inl hx
        · exact Or.inr (List.mem_cons_of_mem _ hx)
      · rintro (hx | hx)
        · exact Or.inl hx
        · rcases List.mem_cons.1 hx with hx | hx
          · exact Or.inl (hx ▸ hc)
          · exact Or.inr hx
    · rw [if_neg hc]
      have hnd : (acc ++ [c]).Nodup := by
        rw [List.nodup_append]
        exact ⟨h, List.nodup_singleton c, by simpa using hc⟩
      obtain ⟨h1, h2⟩ := ih (acc ++ [c]) hnd
      refine ⟨h1, fun x => ?_⟩
      rw [h2]
      simp only [List.mem_append, List.mem_singleton, List.mem_cons]
      tauto

theorem distinctKeys_nodup (l : List Cell) : (distinctKeys l).Nodup :=
  (distinctKeys_aux l [] List.nodup_nil).1

theorem mem_distinctKeys (l : List Cell) (x : Cell) : x ∈ distinctKeys l ↔ x ∈ l := by
  have := (distinctKeys_aux l [] List.nodup_nil).2 x
  simpa [distinctKeys] using this

theorem aggRows_eq (pairs : List (Cell × Cell)) (keys : List Cell)
    (h : ∀ p ∈ pairs, p.2.isNum = true) :
    aggRows pairs none keys = some (keys.map (fun k =>
      { key := k,
        qty := ((pairs.filter (fun p => decide (p.1 = k))).map (fun p => cellNum p.2)).sum,
        val := none })) := by
  induction keys with
  | nil => rfl
  | cons k ks ih =>
    have hq : sumNum ((pairs.filter (fun p => decide (p.1 = k))).map Prod.snd) =
        some (((pairs.filter (fun p => decide (p.1 = k))).map (fun p => cellNum p.2)).sum) := by
      have hs := @sumNum_eq ((pairs.filter (fun p => decide (p.1 = k))).map Prod.snd)
        (fun c hc => by
          obtain ⟨p, hp, hpc⟩ := List.mem_map.1 hc
          exact hpc ▸ h p (List.mem_of_mem_filter hp))
      rw [hs, List.map_map]
      rfl
    simp [aggRows, hq, ih]

theorem pairwise_orderedInsert_of {α : Type} (r : α → α → Prop) [DecidableRel r]
    (Q : α → α → Prop) (x : α) (l : List α) (hl : l.Pairwise Q)
    (h1 : ∀ y ∈ l, Q x y) (h2 : ∀ y ∈ l, ¬ r x y → Q y x) :
    (List.orderedInsert r x l).Pairwise Q := by
  induction l with
  | nil => simp
  | cons b t ih =>
    simp only [List.orderedInsert]
    by_cases hrb : r x b
    · rw [if_pos hrb]
      exact List.Pairwise.cons (fun y hy => h1 y hy) hl
    · rw [if_neg hrb]
      refine List.Pairwise.cons ?_ ?_
      · intro y hy
        rcases (List.mem_orderedInsert r).1 hy with rfl | hy
        · exact h2 b (by simp) hrb
        · exact (List.pairwise_cons.1 hl).1 y hy
      · exact ih (List.pairwise_cons.1 hl).2
          (fun y hy => h1 y (by simp [hy]))
          (fun y hy hr => h2 y (by simp [hy]) hr)

theorem pairwise_insertionSort_of {α : Type} (r : α → α → Prop) [DecidableRel r]
    (Q : α → α → Prop) (l : List α) (hl : l.Pairwise Q)
    (h : ∀ a ∈ l, ∀ b ∈ l, ¬ r a b → Q b a) :
    (List.insertionSort r l).Pairwise Q := by
  induction l with
  | nil => simp
  | cons x t ih =>
    simp only [List.insertionSort]
    obtain ⟨hx, ht⟩ := List.pairwise_cons.1 hl
    apply pairwise_orderedInsert_of
    · exact ih ht (fun a ha b hb hr => h a (by simp [ha]) b (by simp [hb]) hr)
    · intro y hy
      exact hx y ((List.mem_insertionSort r).1 hy)
    · intro y hy hr
      exact h x (by simp) y (by simp [(List.mem_insertionSort r).1 hy]) hr

theorem colIdx_of_mem {df : DataFrame} {n : String} (h : n ∈ df.header) :
    ∃ i, colIdx df n = some i := by
  cases hc : colIdx df n with
  | some i => exact ⟨i, rfl⟩
  | none =>
    unfold colIdx at hc
    rw [List.findIdx?_eq_none_iff] at hc
    have := hc n h
    simp at this

theorem colCells_length {df : DataFrame} {n : String} {i : Nat} (h : colIdx df n = some i) :
    (colCells df n).length = df.rows.length := by
  unfold colCells
  rw [h]
  simp

theorem findProductColumn_mem {df : DataFrame} {pc : String}
    (h : findProductColumn df = some pc) : pc ∈ df.header := by
  simp only [findProductColumn] at h
  split at h
  · next col heq =>
    cases h
    exact List.mem_of_find?_eq_some heq
  · next heq =>
    cases hh : df.header with
    | nil => rw [hh] at h; simp at h
    | cons c t =>
      rw [hh] at h
      simp only [List.head?] at h
      cases h
      exact List.mem_cons_self _ _

/-- The claim-side per-group quantity: the sum of the quantity cells of the
rows whose product cell equals the group key. -/
def groupQty (df : DataFrame) (pc qc : String) (k : Cell) : Int :=
  ((((colCells df pc).zip (colCells df qc)).filter (fun p => decide (p.1 = k))).map
    (fun p => cellNum p.2)).sum

/-- The claim-side summary row of one group. -/
def summaryRowOf (df : DataFrame) (pc qc : String) (k : Cell) : SummaryRow :=
  { key := k, qty := groupQty df pc qc k, val := none }

/-- C3 (amended): on a table whose resolved product column is string-valued
and whose `quantidade` column is numeric, `get_summary_by_product` groups the
rows by product key and sums the quantity per group; the output is sorted
descending by summed quantity, its keys are exactly the distinct product
values, and groups with equal sums appear in ascending order of their key
(the groupby step sorts the group labels) — not in first-appearance order. -/
theorem c3_group_summary (df : DataFrame) (pc : String)
    (hpc : findProductColumn df = some pc)
    (hq : df.header.contains "quantidade" = true)
    (hkeys : ∀ c ∈ colCells df pc, c.isStr = true)
    (hnum : ∀ c ∈ colCells df "quantidade", c.isNum = true) :
    ∃ gs, get_summary_by_product df "quantidade" none = .ok gs ∧
      gs.Pairwise sumGe ∧
      gs.Pairwise (fun a b => a.qty = b.qty → keyLe a.key b.key ∧ a.key ≠ b.key) ∧
      (gs.map SummaryRow.key).Perm (distinctKeys (colCells df pc)) ∧
      (∀ g ∈ gs, g.val = none ∧ g.qty = groupQty df pc "quantidade" g.key) := by
  obtain ⟨pi, hpi⟩ := colIdx_of_mem (findProductColumn_mem hpc)
  obtain ⟨qi, hqi⟩ := colIdx_of_mem (show "quantidade" ∈ df.header by simpa using hq)
  have hZfst : ((colCells df pc).zip (colCells df "quantidade")).map Prod.fst = colCells df pc :=
    List.map_fst_zip _ _ (by rw [colCells_length hpi, colCells_length hqi])
  have hfilter : (((colCells df pc).zip (colCells df "quantidade")).filter (fun p => !p.1.isNa)) =
      (colCells df pc).zip (colCells df "quantidade") := by
    rw [List.filter_eq_self]
    intro p hp
    have hs := hkeys p.1 (List.of_mem_zip hp).1
    cases hc : p.1 <;> rw [hc] at hs <;> simp_all [Cell.isStr, Cell.isNa]
  have hpairsnum : ∀ p ∈ (colCells df pc).zip (colCells df "quantidade"), p.2.isNum = true :=
    fun p hp => hnum p.2 (List.of_mem_zip hp).2
  have hmain : get_summary_by_product df "quantidade" none =
      .ok (List.insertionSort sumGe
        ((List.insertionSort keyLe (distinctKeys (colCells df pc))).map
          (summaryRowOf df pc "quantidade"))) := by
    unfold get_summary_by_product
    simp only [hpc]
    rw [if_pos hq]
    simp only [hfilter, hZfst]
    rw [aggRows_eq _ _ hpairsnum]
    rfl
  refine ⟨_, hmain, List.sorted_insertionSort sumGe _, ?_, ?_, ?_⟩
  · apply pairwise_insertionSort_of
    · rw [List.pairwise_map]
      have hsorted : (List.insertionSort keyLe (distinctKeys (colCells df pc))).Pairwise keyLe :=
        List.sorted_insertionSort keyLe _
      have hnd : (List.insertionSort keyLe (distinctKeys (colCells df pc))).Nodup :=
        ((List.perm_insertionSort keyLe _).nodup_iff).mpr (distinctKeys_nodup _)
      exact (hsorted.and hnd).imp (fun h _ => ⟨h.1, h.2⟩)
    · intro a _ b _ hr heq
      exact absurd (show sumGe a b from le_of_eq heq) hr
  · have h1 : List.Perm
        ((List.insertionSort sumGe
          ((List.insertionSort keyLe (distinctKeys (colCells df pc))).map
            (summaryRowOf df pc "quantidade"))).map SummaryRow.key)
        (((List.insertionSort keyLe (distinctKeys (colCells df pc))).map
          (summaryRowOf df pc "quantidade")).map SummaryRow.key) :=
      (List.perm_insertionSort sumGe _).map _
    have h2 : ((List.insertionSort keyLe (distinctKeys (colCells df pc))).map
        (summaryRowOf df pc "quantidade")).map SummaryRow.key =
        List.insertionSort keyLe (distinctKeys (colCells df pc)) := by
      have hcomp : SummaryRow.key ∘ summaryRowOf df pc "quantidade" = id := by
        funext k
        rfl
      rw [List.map_map, hcomp, List.map_id]
    rw [h2] at h1
    exact h1.trans (List.perm_insertionSort keyLe _)
  · intro g hg
    have hmem : g ∈ (List.insertionSort keyLe (distinctKeys (colCells df pc))).map
        (summaryRowOf df pc "quantidade") :=
      ((List.perm_insertionSort sumGe _).mem_iff).1 hg
    obtain ⟨k, _, rfl⟩ := List.mem_map.1 hmem
    exact ⟨rfl, rfl⟩

/-- Tied-sum table for the C3 counterexample: product `"b"` appears first,
then `"a"`, both groups summing to 5. -/
def dfC3 : DataFrame :=
  { header := ["produto", "quantidade"],
    rows := [[Cell.str "b", Cell.num 5], [Cell.str "a", Cell.num 5]] }

/-- Counterexample to C3 as stated: on `dfC3` both groups have the same
summed quantity, the keys first appear in the order `b`, `a`, yet the summary
comes back in the order `a`, `b` — the tie-break follows ascending key order
(pandas `groupby` sorts the group labels before the value sort), not
first-appearance order. -/
theorem c3_counterexample :
    get_summary_by_product dfC3 "quantidade" none =
      .ok [{ key := Cell.str "a", qty := 5, val := none },
           { key := Cell.str "b", qty := 5, val := none }] ∧
    distinctKeys (colCells dfC3 "produto") = [Cell.str "b", Cell.str "a"] := by
  constructor <;> decide

/-- Concrete table for the C3 witness. -/
def dfC3w : DataFrame :=
  { header := ["produto", "quantidade"],
    rows := [[Cell.str "Caneta", Cell.num 10], [Cell.str "Caderno", Cell.num 5],
             [Cell.str "Caneta", Cell.num 3]] }

/-- Witness for C3's amended statement on the spec's example table. -/
theorem c3_witness :
    findProductColumn dfC3w = some "produto" ∧
    ∃ gs, get_summary_by_product dfC3w "quantidade" none = .ok gs ∧
      gs.Pairwise sumGe ∧
      gs.Pairwise (fun a b => a.qty = b.qty → keyLe a.key b.key ∧ a.key ≠ b.key) ∧
      (gs.map SummaryRow.key).Perm (distinctKeys (colCells dfC3w "produto")) ∧
      (∀ g ∈ gs, g.val = none ∧ g.qty = groupQty dfC3w "produto" "quantidade" g.key) :=
  ⟨by decide, c3_group_summary dfC3w "produto" (by decide) (by decide) (by decide) (by decide)⟩
